import Mathlib

/-!
Shallow embedding of ruuvitag-jsonl-socket-bridge (src/main.rs).

The program: a Bluetooth scan task decodes RuuviTag manufacturer-data
advertisements into `SensorValues` records and publishes them on a tokio
broadcast channel; a TCP accept loop spawns one `handle_socket` session per
connection, each serializing every received record to a JSON line followed by
CRLF; an optional watchdog task races the first received record against a
deadline and calls `process::exit(1)` on timeout.

External effects (adapter calls, socket writes, the timer/recv race) are
modelled as explicit inputs; machine integers are Nat/Int (every value
involved is a decoded sensor field or a count, never overflowed by the
code itself).
-/

namespace Bridge

/-- Log severities of the `log` crate as used by main.rs
(trace!, debug!, info!, warn!, error!). -/
inductive Level where
  | trace
  | debug
  | info
  | warn
  | error
deriving DecidableEq, Repr

/-- Numeric rank of a log level, trace lowest, error highest. -/
def Level.rank : Level → Nat
  | .trace => 0
  | .debug => 1
  | .info => 2
  | .warn => 3
  | .error => 4

/-- The JSON values actually constructed by the json! literal in
`handle_socket`: null (absent optional field), an integer, or an array of
integers (the acceleration vector, and the 6-byte MAC address). -/
inductive JVal where
  | null
  | int (n : Int)
  | intArr (xs : List Int)
deriving DecidableEq, Repr

/-- serde_json rendering of one value: `null`, a decimal integer, or a
compact array. -/
def renderJVal : JVal → String
  | .null => "null"
  | .int n => toString n
  | .intArr xs => "[" ++ String.intercalate (",") (xs.map toString) ++ "]"

/-- serde_json compact rendering of an object from its (already ordered)
key/value list: no spaces, keys quoted. -/
def renderObj (fields : List (String × JVal)) : String :=
  "\x7b" ++
    String.intercalate (",")
      (fields.map (fun f => "\"" ++ f.1 ++ "\":" ++ renderJVal f.2)) ++
  "\x7d"

/-- The CRLF record separator written after each JSON object. -/
def crlf : String := "\r\n"

/-- A decoded record as seen through the ten ruuvi-sensor-protocol accessors
used by `handle_socket`. Every field is independently optional (firmware
variants omit fields). Acceleration is the i16 triple of
`AccelerationVector`; the MAC address accessor yields six bytes. -/
structure SensorValues where
  acceleration_vector_as_milli_g : Option (Int × Int × Int)
  battery_potential_as_millivolts : Option Nat
  humidity_as_ppm : Option Nat
  mac_address : Option (List Nat)
  measurement_sequence_number : Option Nat
  movement_counter : Option Nat
  pressure_as_pascals : Option Nat
  temperature_as_millikelvins : Option Nat
  temperature_as_millicelsius : Option Int
  tx_power_as_dbm : Option Int
deriving DecidableEq, Repr

/-- Rendering of one optional Nat-valued field: present as its number,
absent as null. -/
def optNat : Option Nat → JVal
  | none => .null
  | some v => .int v

/-- Rendering of one optional Int-valued field. -/
def optInt : Option Int → JVal
  | none => .null
  | some v => .int v

/-- The key/value map built by the json! literal in `handle_socket`
(main.rs lines 96-111). serde_json's Value::Object is an ordered map sorted
by key, so the fields are listed here in that sorted order; the literal in
the source inserts exactly these ten keys. The acceleration entry embeds
`.map` over the option producing `Some(vec![a, b, c])`, which serde renders
as a 3-element array (None as null); the MAC accessor's six bytes render as
a 6-element array. -/
def sensorValuesFields (sv : SensorValues) : List (String × JVal) :=
  [ ("acceleration_vector_as_milli_g",
      match sv.acceleration_vector_as_milli_g with
      | none => .null
      | some (a, b, c) => .intArr [a, b, c]),
    ("battery_potential_as_millivolts", optNat sv.battery_potential_as_millivolts),
    ("humidity_as_ppm", optNat sv.humidity_as_ppm),
    ("mac_address",
      match sv.mac_address with
      | none => .null
      | some bytes => .intArr (bytes.map Int.ofNat)),
    ("measurement_sequence_number", optNat sv.measurement_sequence_number),
    ("movement_counter", optNat sv.movement_counter),
    ("pressure_as_pascals", optNat sv.pressure_as_pascals),
    ("temperature_as_millicelsius", optInt sv.temperature_as_millicelsius),
    ("temperature_as_millikelvins", optNat sv.temperature_as_millikelvins),
    ("tx_power_as_dbm", optInt sv.tx_power_as_dbm) ]

/-- The ten documented JSON keys. -/
def documentedKeys : List String :=
  [ "acceleration_vector_as_milli_g", "battery_potential_as_millivolts",
    "humidity_as_ppm", "mac_address", "measurement_sequence_number",
    "movement_counter", "pressure_as_pascals", "temperature_as_millicelsius",
    "temperature_as_millikelvins", "tx_power_as_dbm" ]

/-- One serialized record as sent on the socket: `value.to_string()`
followed by the CRLF separator (main.rs lines 113-118). -/
def sensorMessage (sv : SensorValues) : String :=
  renderObj (sensorValuesFields sv) ++ crlf

/-! ## Session (handle_socket, main.rs lines 90-132) -/

/-- I/O error kinds distinguished by `handle_socket`: the match is on
`std::io::ErrorKind::BrokenPipe` versus everything else (an arbitrary other
kind is indexed by a number). -/
inductive IoErrorKind where
  | brokenPipe
  | otherKind (k : Nat)
deriving DecidableEq, Repr

/-- Result of one socket write_all or flush call. -/
abbrev IoResult := Except IoErrorKind Unit

/-- Rust `Result::and`: keeps the first error, otherwise the second
result. `handle_socket` combines the three write/flush results with
`json_write_res.and(newline_write_res).and(flush_res)`. -/
def resultAnd (a b : IoResult) : IoResult :=
  match a with
  | .error e => .error e
  | .ok _ => b

/-- What `receiver.recv().await` yields in one session iteration: a record,
or a broadcast error (the subscription lagged behind the buffer, or the
channel closed). -/
inductive RecvResult where
  | ok (sv : SensorValues)
  | lagged (skipped : Nat)
  | closed
deriving DecidableEq, Repr

/-- Outcome of one iteration of the `handle_socket` loop.
`panicked` kills the session task (tokio contains the panic to the task);
`looped` continues the loop, carrying the bytes whose write was attempted
and the logs emitted; `terminated` is the `break` path, carrying whether
`socket.shutdown()` was attempted. -/
inductive SessionStep where
  | panicked
  | looped (attempted : String) (logs : List Level)
  | terminated (attempted : String) (logs : List Level) (shutdownAttempted : Bool)
deriving DecidableEq, Repr

/-- One iteration of the `handle_socket` loop (main.rs lines 92-131), as a
function of the recv outcome and the three I/O results. `recv().unwrap()`
panics on any recv error (Lagged as well as Closed). On a record: serialize,
write the JSON bytes, write CRLF, flush; match the combined result —
Ok traces and loops, BrokenPipe logs at info, attempts shutdown and breaks,
any other error kind logs at warn and loops (no backoff, no retry count). -/
def handleSocketStep (r : RecvResult) (jsonWriteRes newlineWriteRes flushRes : IoResult) :
    SessionStep :=
  match r with
  | .lagged _ => .panicked
  | .closed => .panicked
  | .ok sv =>
    let attempted := sensorMessage sv
    match resultAnd (resultAnd jsonWriteRes newlineWriteRes) flushRes with
    | .ok _ => .looped attempted [Level.trace]
    | .error .brokenPipe => .terminated attempted [Level.info] true
    | .error (.otherKind _) => .looped attempted [Level.warn]

/-! ## Scan task (bt_event_scan, main.rs lines 29-88) -/

/-- Decode errors of ruuvi-sensor-protocol as distinguished by the match in
`bt_event_scan`: `UnknownManufacturerId` has its own arm; every other
variant falls to the wildcard arm (modelled by a numeric tag). -/
inductive ParseError where
  | unknownManufacturerId (id : Nat)
  | otherError (tag : Nat)
deriving DecidableEq, Repr

/-- The external decoder boundary:
`SensorValues::from_manufacturer_specific_data(manufacturer_id, bytes)`. -/
abbrev Decoder := Nat → List Nat → Except ParseError SensorValues

/-- Handling of one (manufacturer_id, bytes) pair (main.rs lines 60-77):
a successful decode is sent on the broadcast channel (the send result is
only traced, never inspected); UnknownManufacturerId is skipped with a
debug log; any other decode error is skipped with an error log. Returns
the records published and the logs emitted. -/
def processPair (decode : Decoder) (manufacturerId : Nat) (bytes : List Nat) :
    List SensorValues × List Level :=
  match decode manufacturerId bytes with
  | .ok sv => ([sv], [Level.trace])
  | .error (.unknownManufacturerId _) => ([], [Level.debug])
  | .error (.otherError _) => ([], [Level.error])

/-- Handling of a whole `manufacturer_data` map, pair by pair in iteration
order; no pair's outcome stops the iteration. -/
def processManufacturerData (decode : Decoder) :
    List (Nat × List Nat) → List SensorValues × List Level
  | [] => ([], [])
  | (mid, bytes) :: rest =>
    let head := processPair decode mid bytes
    let tail := processManufacturerData decode rest
    (head.1 ++ tail.1, head.2 ++ tail.2)

/-- btleplug central events as matched by `bt_event_scan`:
ManufacturerDataAdvertisement has the only non-trivial arm; every other
event kind hits the wildcard arm and is ignored. -/
inductive CentralEvent where
  | manufacturerDataAdvertisement (deviceId : Nat) (data : List (Nat × List Nat))
  | otherEvent (tag : Nat)
deriving DecidableEq, Repr

/-- Handling of one central event (main.rs lines 46-81). -/
def processEvent (decode : Decoder) : CentralEvent → List SensorValues × List Level
  | .manufacturerDataAdvertisement _ data => processManufacturerData decode data
  | .otherEvent _ => ([], [])

/-- The `while let Some(event) = events.next().await` loop: every event of
the stream is handled; no event's outcome stops the loop. -/
def processEvents (decode : Decoder) : List CentralEvent → List SensorValues × List Level
  | [] => ([], [])
  | e :: es =>
    let head := processEvent decode e
    let tail := processEvents decode es
    (head.1 ++ tail.1, head.2 ++ tail.2)

/-- An opaque btleplug error (adapter enumeration, event stream, scan). -/
inductive BtError where
  | err (code : Nat)
deriving DecidableEq, Repr

/-- One adapter as consumed by `bt_event_scan`: the results of its
`adapter_info()`, `events()`, `start_scan()` and `stop_scan()` calls and
its event stream. -/
structure AdapterH where
  adapterInfo : Except BtError String
  eventsResult : Except BtError Unit
  startScan : Except BtError Unit
  stopScan : Except BtError Unit
  events : List CentralEvent

/-- The adapter boundary as consumed by `bt_event_scan`: the results of
`Manager::new()` and `manager.adapters()`. -/
structure AdapterEnv where
  managerNew : Except BtError Unit
  adapters : Except BtError (List AdapterH)

/-- Outcome of an async task body: a returned value, a returned `Err`
(propagated by `?`), or a panic (from `.unwrap()`). -/
inductive TaskResult (α : Type) where
  | ok (a : α)
  | errored (e : BtError)
  | panicked
deriving DecidableEq, Repr

/-- First adapter_info error in the debug listing loop (main.rs lines
34-36), where `?` propagates the first failure. -/
def firstInfoError (adapters : List AdapterH) : Option BtError :=
  adapters.findSome? (fun a =>
    match a.adapterInfo with
    | .error e => some e
    | .ok _ => none)

/-- The body of `bt_event_scan` (main.rs lines 29-88).
`Manager::new().await.unwrap()` panics on failure; `manager.adapters().await?`
and each `adapter.adapter_info().await?` propagate errors; `adapters.get(0)
.unwrap()` panics on an empty adapter list; `adapter.events().await?`
propagates; the `start_scan` result is bound and logged but never matched,
so a scan-start failure does not alter control flow; then the event loop
runs to the end of the stream and the function returns Ok. The records
published on the broadcast channel are returned for observation. -/
def btEventScan (decode : Decoder) (env : AdapterEnv) : TaskResult (List SensorValues) :=
  match env.managerNew with
  | .error _ => .panicked
  | .ok _ =>
    match env.adapters with
    | .error e => .errored e
    | .ok adapters =>
      match firstInfoError adapters with
      | some e => .errored e
      | none =>
        match adapters.head? with
        | none => .panicked
        | some adapter =>
          match adapter.eventsResult with
          | .error e => .errored e
          | .ok _ => .ok (processEvents decode adapter.events).1

/-! ## CLI options and main (main.rs lines 134-210) -/

/-- The structopt options: hostname (String, default "localhost"), port
(i16, default 22222), initial_event_timeout (u8 seconds, default 30,
0 disables the watchdog). The port field stores the already-parsed i16
value; the timeout the parsed u8 value. -/
structure Opt where
  hostname : String
  port : Int
  initial_event_timeout : Nat
deriving DecidableEq, Repr

/-- The default option values of the structopt derive. -/
def defaultOpt : Opt :=
  { hostname := "localhost", port := 22222, initial_event_timeout := 30 }

/-- Value-level gate of structopt parsing the `--port` argument through
`i16::from_str`: a decimal numeral is accepted exactly when its value fits
in i16, i.e. lies in [-32768, 32767]; otherwise argument parsing fails and
the program never starts. The string-to-integer layer is elided; `n` is the
integer the argument's numeral denotes. -/
def parsePort (n : Int) : Option Int :=
  if -32768 ≤ n ∧ n ≤ 32767 then some n else none

/-- Value-level gate of structopt parsing `--initial-event-timeout` through
`u8::from_str`: accepted exactly when the value fits in u8. -/
def parseTimeout (n : Int) : Option Int :=
  if 0 ≤ n ∧ n ≤ 255 then some n else none

/-- The bind address built in main (lines 197-199):
hostname ++ ":" ++ port.to_string(). -/
def bindAddr (o : Opt) : String :=
  o.hostname ++ ":" ++ toString o.port

/-- The guard of main.rs line 173: the watchdog task is spawned only when
initial_event_timeout differs from 0. -/
def watchdogArmed (timeout : Nat) : Bool :=
  timeout != 0

/-- Errors a broadcast `Receiver::recv()` can complete with. -/
inductive RecvError where
  | closed
  | laggedBy (skipped : Nat)
deriving DecidableEq, Repr

/-- Terminal state of the watchdog task after its single select. -/
inductive WatchdogResult where
  | satisfied
  | expired (status : Nat)
deriving DecidableEq, Repr

/-- The watchdog task body (main.rs lines 175-189) as a function of what its
`receiver.recv()` yields within the deadline: `none` means the recv future
did not complete before the sleep, so the sleep branch of the select runs
(error log, then `process::exit(1)`); `some r` means the recv branch runs
first, and since the select binds the recv result to `_`, the success path
is taken whatever `r` is (Ok, Lagged or Closed). Returns `none` when the
guard of line 173 never spawns the task at all (timeout = 0). The select
runs once and the task body ends: both results are terminal, the task never
re-arms. -/
def watchdogOutcome (timeout : Nat)
    (firstRecvWithinDeadline : Option (Except RecvError SensorValues)) :
    Option WatchdogResult :=
  if watchdogArmed timeout then
    match firstRecvWithinDeadline with
    | some _ => some .satisfied
    | none => some (.expired 1)
  else
    none

/-- Count of live broadcast senders while main sits in its accept loop:
`tx` lives inside the scan task, `monitor_tx` inside the watchdog task, and
`socket_tx` is owned by main and used by the accept loop on every iteration
(line 205), so it is alive for the entire process lifetime. -/
def sendersAlive (scanTaskAlive watchdogTaskAlive : Bool) : Nat :=
  (if scanTaskAlive then 1 else 0) + (if watchdogTaskAlive then 1 else 0) + 1

/-- A tokio broadcast channel reports Closed only once every sender has been
dropped. -/
def channelClosed (scanTaskAlive watchdogTaskAlive : Bool) : Bool :=
  sendersAlive scanTaskAlive watchdogTaskAlive == 0

/-- Resolution of the watchdog's `recv()` future in terms of what happened
upstream: it completes with the first record published before the deadline
if there is one, completes with Closed if the channel has closed, and
otherwise stays pending past the deadline. -/
def watchdogFirstRecv (publishedBeforeDeadline : Option SensorValues)
    (scanTaskAlive watchdogTaskAlive : Bool) :
    Option (Except RecvError SensorValues) :=
  match publishedBeforeDeadline with
  | some sv => some (.ok sv)
  | none =>
    if channelClosed scanTaskAlive watchdogTaskAlive then
      some (.error .closed)
    else
      none

/-- External resolutions main's run depends on. -/
structure Env where
  adapterEnv : AdapterEnv
  bindResult : Except IoErrorKind Unit
  firstRecvWithinDeadline : Option (Except RecvError SensorValues)

/-- How the process as a whole ends up.
`panickedMain` is the `TcpListener::bind(..).unwrap()` panic in the main
task, which aborts the process with the Rust panic exit status (non-zero);
`exited s` is `process::exit(s)`; `acceptLoop` is the normal state: main
loops forever accepting connections. -/
inductive ProcessOutcome where
  | panickedMain
  | exited (status : Nat)
  | acceptLoop
deriving DecidableEq, Repr

/-- Whether a process outcome is an abnormal termination with non-zero
status. A Rust panic reaching the top of main aborts with the runtime's
non-zero panic status; the accept loop never terminates at all. -/
def abortsNonzero : ProcessOutcome → Bool
  | .panickedMain => true
  | .exited s => s != 0
  | .acceptLoop => false

/-- The tail of main (main.rs lines 173-209). The watchdog task (when
armed) and the scan task are spawned detached: their join handles are
never awaited, a panic inside them is caught by the tokio runtime and
confined to the task, and the scan task's returned Result is explicitly
discarded (`let _ = bt_event_scan(tx).await`), so the process outcome
does not depend on the adapter environment at all. Bind happens right
after spawning and its failure panics main immediately, before the
watchdog's deadline (at least one second away) can fire; otherwise the
only exit path is the watchdog's `process::exit(1)`. -/
def processOutcome (o : Opt) (env : Env) : ProcessOutcome :=
  match env.bindResult with
  | .error _ => .panickedMain
  | .ok _ =>
    match watchdogOutcome o.initial_event_timeout env.firstRecvWithinDeadline with
    | some (.expired s) => .exited s
    | _ => .acceptLoop

/-- A run of main: which auxiliary tasks were armed/spawned, the scan
task's own outcome (observable only in logs), and the process outcome. The
scan task is spawned exactly once; nothing in main re-invokes
`bt_event_scan` after it returns or panics, and nothing re-arms the
watchdog. -/
structure ProcessRun where
  watchdogWasArmed : Bool
  scanTask : TaskResult (List SensorValues)
  outcome : ProcessOutcome
deriving DecidableEq, Repr

/-- Main, assembled. -/
def mainRun (decode : Decoder) (o : Opt) (env : Env) : ProcessRun :=
  { watchdogWasArmed := watchdogArmed o.initial_event_timeout
    scanTask := btEventScan decode env.adapterEnv
    outcome := processOutcome o env }

/-! ## Shared concrete inputs used by witnesses -/

/-- The spec §8 example record: only temperature_as_millicelsius present,
with value 21500. -/
def sampleRecord : SensorValues :=
  { acceleration_vector_as_milli_g := none
    battery_potential_as_millivolts := none
    humidity_as_ppm := none
    mac_address := none
    measurement_sequence_number := none
    movement_counter := none
    pressure_as_pascals := none
    temperature_as_millikelvins := none
    temperature_as_millicelsius := some 21500
    tx_power_as_dbm := none }

/-- A record with every optional field present. -/
def fullRecord : SensorValues :=
  { acceleration_vector_as_milli_g := some (4, -8, 1012)
    battery_potential_as_millivolts := some 2977
    humidity_as_ppm := some 430000
    mac_address := some [209, 118, 176, 123, 99, 2]
    measurement_sequence_number := some 205
    movement_counter := some 66
    pressure_as_pascals := some 100044
    temperature_as_millikelvins := some 294650
    temperature_as_millicelsius := some 21500
    tx_power_as_dbm := some 4 }

/-- A decoder rejecting everything as an unknown manufacturer. -/
def rejectAllDecoder : Decoder :=
  fun _ _ => Except.error (ParseError.unknownManufacturerId 0)

/-- A decoder accepting everything as the sample record. -/
def acceptAllDecoder : Decoder :=
  fun _ _ => Except.ok sampleRecord

/-- A decoder failing with a non-UnknownManufacturerId error. -/
def malformedDecoder : Decoder :=
  fun _ _ => Except.error (ParseError.otherError 5)

/-- Adapter environment whose adapter enumeration fails. -/
def enumFailEnv : AdapterEnv :=
  { managerNew := Except.ok (), adapters := Except.error (BtError.err 7) }

/-- Process environment: adapter enumeration fails, bind succeeds, the
watchdog recv never completes. -/
def enumFailProcEnv : Env :=
  { adapterEnv := enumFailEnv
    bindResult := Except.ok ()
    firstRecvWithinDeadline := none }

/-- Options with the watchdog disabled. -/
def noWatchdogOpt : Opt :=
  { hostname := "localhost", port := 22222, initial_event_timeout := 0 }

/-! ## Claims -/

set_option maxRecDepth 8000 in
/-- C1: every received SensorValues record is serialized to a JSON object
with exactly the ten documented keys; each absent optional field renders as
null and each present field as its value (the acceleration vector as a
3-element array); on a successful write the bytes sent are exactly that
JSON object followed by the two-byte CRLF separator. The last conjunct
instantiates the spec §8 example. -/
theorem c1_serialization (sv : SensorValues) :
    (sensorValuesFields sv).map Prod.fst = documentedKeys ∧
    (sensorValuesFields sv).lookup ("acceleration_vector_as_milli_g") =
      some (match sv.acceleration_vector_as_milli_g with
            | none => JVal.null
            | some (a, b, c) => JVal.intArr [a, b, c]) ∧
    (sensorValuesFields sv).lookup ("battery_potential_as_millivolts") =
      some (optNat sv.battery_potential_as_millivolts) ∧
    (sensorValuesFields sv).lookup ("humidity_as_ppm") =
      some (optNat sv.humidity_as_ppm) ∧
    (sensorValuesFields sv).lookup ("mac_address") =
      some (match sv.mac_address with
            | none => JVal.null
            | some bytes => JVal.intArr (bytes.map Int.ofNat)) ∧
    (sensorValuesFields sv).lookup ("measurement_sequence_number") =
      some (optNat sv.measurement_sequence_number) ∧
    (sensorValuesFields sv).lookup ("movement_counter") =
      some (optNat sv.movement_counter) ∧
    (sensorValuesFields sv).lookup ("pressure_as_pascals") =
      some (optNat sv.pressure_as_pascals) ∧
    (sensorValuesFields sv).lookup ("temperature_as_millikelvins") =
      some (optNat sv.temperature_as_millikelvins) ∧
    (sensorValuesFields sv).lookup ("temperature_as_millicelsius") =
      some (optInt sv.temperature_as_millicelsius) ∧
    (sensorValuesFields sv).lookup ("tx_power_as_dbm") =
      some (optInt sv.tx_power_as_dbm) ∧
    optNat none = JVal.null ∧ optInt none = JVal.null ∧
    (∀ v : Nat, optNat (some v) = JVal.int v) ∧
    (∀ v : Int, optInt (some v) = JVal.int v) ∧
    sensorMessage sv = renderObj (sensorValuesFields sv) ++ crlf ∧
    crlf = "\r\n" ∧ crlf.utf8ByteSize = 2 ∧
    handleSocketStep (RecvResult.ok sv) (Except.ok ()) (Except.ok ()) (Except.ok ()) =
      SessionStep.looped (sensorMessage sv) [Level.trace] ∧
    sensorMessage sampleRecord =
      "\x7b\"acceleration_vector_as_milli_g\":null,\"battery_potential_as_millivolts\":null,\"humidity_as_ppm\":null,\"mac_address\":null,\"measurement_sequence_number\":null,\"movement_counter\":null,\"pressure_as_pascals\":null,\"temperature_as_millicelsius\":21500,\"temperature_as_millikelvins\":null,\"tx_power_as_dbm\":null\x7d\r\n" := by
  refine ⟨rfl, rfl, rfl, rfl, rfl, rfl, rfl, rfl, rfl, rfl, rfl, rfl, rfl,
    fun v => rfl, fun v => rfl, rfl, rfl, rfl, rfl, rfl⟩

/-- C2 counterexample: with the watchdog disabled, an adapter-enumeration
failure makes `bt_event_scan` return an error that main discards; the
process does not abort — it sits in the accept loop — refuting the claim
that such a failure is fatal to the whole process with a non-zero status. -/
theorem c2_counterexample :
    (mainRun rejectAllDecoder noWatchdogOpt enumFailProcEnv).scanTask =
      TaskResult.errored (BtError.err 7) ∧
    (mainRun rejectAllDecoder noWatchdogOpt enumFailProcEnv).outcome =
      ProcessOutcome.acceptLoop ∧
    abortsNonzero (mainRun rejectAllDecoder noWatchdogOpt enumFailProcEnv).outcome =
      false := by
  exact ⟨rfl, rfl, rfl⟩

/-- C2 amended: adapter-boundary failures are confined to the detached scan
task. A manager-creation failure panics the scan task only; an
adapter-enumeration error is returned from `bt_event_scan` and discarded by
main; the process outcome is entirely independent of the adapter
environment; and the scan task's behaviour does not depend on the
`start_scan` result at all (a scan-start failure is merely logged and event
processing continues). Nothing is retried: `bt_event_scan` is invoked once
per process run. -/
theorem c2_amended (decode : Decoder) (o : Opt) (env : Env) (e : BtError)
    (hok : env.adapterEnv.managerNew = Except.ok ())
    (henum : env.adapterEnv.adapters = Except.error e) :
    (mainRun decode o env).scanTask = TaskResult.errored e ∧
    (∀ a' : AdapterEnv,
      (mainRun decode o { env with adapterEnv := a' }).outcome =
        (mainRun decode o env).outcome) ∧
    (∀ (a : AdapterH) (r r' : Except BtError Unit),
      btEventScan decode
        { managerNew := Except.ok (), adapters := Except.ok [{ a with startScan := r }] } =
      btEventScan decode
        { managerNew := Except.ok (), adapters := Except.ok [{ a with startScan := r' }] }) := by
  refine ⟨?_, fun a' => rfl, fun a r r' => rfl⟩
  show btEventScan decode env.adapterEnv = TaskResult.errored e
  unfold btEventScan
  rw [hok, henum]

/-- C2 amended, witnessed on a concrete failing adapter environment. -/
theorem c2_amended_witness :
    (mainRun rejectAllDecoder defaultOpt enumFailProcEnv).scanTask =
      TaskResult.errored (BtError.err 7) :=
  (c2_amended rejectAllDecoder defaultOpt enumFailProcEnv (BtError.err 7) rfl rfl).1

/-- C3 counterexample: a Lagged signal from the subscription does not let
the session continue looping — `recv().unwrap()` panics, tearing the
session task down — refuting the claim that only broken-pipe detection or
external cancellation ends a session. -/
theorem c3_counterexample :
    handleSocketStep (RecvResult.lagged 3) (Except.ok ()) (Except.ok ()) (Except.ok ()) =
      SessionStep.panicked ∧
    SessionStep.panicked ≠
      SessionStep.looped (sensorMessage sampleRecord) [Level.trace] := by
  exact ⟨rfl, by simp⟩

/-- C3 amended: a session iteration ends the session on a recv error
(Lagged or Closed — the `unwrap` panic tears the task down) or on a
combined write/flush result with kind BrokenPipe (graceful shutdown and
break); on a delivered record with an Ok combined result it loops with a
trace log, and with any other error kind it loops with a warning log. -/
theorem c3_amended (r : RecvResult) (jr nr fr : IoResult) :
    (∀ n, r = RecvResult.lagged n →
      handleSocketStep r jr nr fr = SessionStep.panicked) ∧
    (r = RecvResult.closed →
      handleSocketStep r jr nr fr = SessionStep.panicked) ∧
    (∀ sv, r = RecvResult.ok sv →
      (resultAnd (resultAnd jr nr) fr = Except.error IoErrorKind.brokenPipe →
        handleSocketStep r jr nr fr =
          SessionStep.terminated (sensorMessage sv) [Level.info] true) ∧
      (resultAnd (resultAnd jr nr) fr = Except.ok () →
        handleSocketStep r jr nr fr =
          SessionStep.looped (sensorMessage sv) [Level.trace]) ∧
      (∀ k, resultAnd (resultAnd jr nr) fr = Except.error (IoErrorKind.otherKind k) →
        handleSocketStep r jr nr fr =
          SessionStep.looped (sensorMessage sv) [Level.warn])) := by
  refine ⟨fun n hn => by subst hn; rfl,
          fun hc => by subst hc; rfl,
          fun sv hsv => ?_⟩
  subst hsv
  refine ⟨fun hb => ?_, fun hok => ?_, fun k hk => ?_⟩
  · simp [handleSocketStep, hb]
  · simp [handleSocketStep, hok]
  · simp [handleSocketStep, hk]

/-- C3 amended, witnessed: a BrokenPipe flush failure on a delivered record
terminates the session with an info log and a shutdown attempt. -/
theorem c3_amended_witness :
    handleSocketStep (RecvResult.ok sampleRecord) (Except.ok ()) (Except.ok ())
        (Except.error IoErrorKind.brokenPipe) =
      SessionStep.terminated (sensorMessage sampleRecord) [Level.info] true :=
  ((c3_amended (RecvResult.ok sampleRecord) (Except.ok ()) (Except.ok ())
      (Except.error IoErrorKind.brokenPipe)).2.2 sampleRecord rfl).1 rfl

/-- C4: for every (manufacturerId, bytes) pair, an UnknownManufacturerId
decode result skips the record with a debug (low-severity) log, any other
decode error skips it with an error (higher-severity) log, a successful
decode publishes the record to the broadcaster; and in every case the
remaining pairs of the advertisement and the remaining events of the stream
are still processed. -/
theorem c4_decode_dispatch (decode : Decoder) (mid : Nat) (bytes : List Nat)
    (rest : List (Nat × List Nat)) (e : CentralEvent) (es : List CentralEvent) :
    (∀ sv, decode mid bytes = Except.ok sv →
      processPair decode mid bytes = ([sv], [Level.trace])) ∧
    (∀ i, decode mid bytes = Except.error (ParseError.unknownManufacturerId i) →
      processPair decode mid bytes = ([], [Level.debug])) ∧
    (∀ t, decode mid bytes = Except.error (ParseError.otherError t) →
      processPair decode mid bytes = ([], [Level.error])) ∧
    Level.rank Level.debug < Level.rank Level.error ∧
    processManufacturerData decode ((mid, bytes) :: rest) =
      ((processPair decode mid bytes).1 ++ (processManufacturerData decode rest).1,
       (processPair decode mid bytes).2 ++ (processManufacturerData decode rest).2) ∧
    processEvents decode (e :: es) =
      ((processEvent decode e).1 ++ (processEvents decode es).1,
       (processEvent decode e).2 ++ (processEvents decode es).2) := by
  refine ⟨fun sv h => ?_, fun i h => ?_, fun t h => ?_, by decide, rfl, rfl⟩
  · simp [processPair, h]
  · simp [processPair, h]
  · simp [processPair, h]

/-- C4 witnessed on the three decode outcomes with concrete decoders. -/
theorem c4_decode_dispatch_witness :
    processPair acceptAllDecoder 1177 [5, 18] = ([sampleRecord], [Level.trace]) ∧
    processPair rejectAllDecoder 76 [1] = ([], [Level.debug]) ∧
    processPair malformedDecoder 1177 [] = ([], [Level.error]) :=
  ⟨(c4_decode_dispatch acceptAllDecoder 1177 [5, 18] [] (CentralEvent.otherEvent 0) []).1
      sampleRecord rfl,
   (c4_decode_dispatch rejectAllDecoder 76 [1] [] (CentralEvent.otherEvent 0) []).2.1
      0 rfl,
   (c4_decode_dispatch malformedDecoder 1177 [] [] (CentralEvent.otherEvent 0) []).2.2.1
      5 rfl⟩

/-- C5: with a non-zero watchdog deadline, the deadline firing before the
subscription's first recv result terminates the whole process with exit
status 1; the subscription yielding first resolves the watchdog to its
terminal Satisfied state (a success log) and the process keeps running its
accept loop — the watchdog never re-arms, both outcomes being terminal. -/
theorem c5_watchdog_race (t : Nat) (h : t ≠ 0) (o : Opt) (aenv : AdapterEnv) :
    watchdogOutcome t none = some (WatchdogResult.expired 1) ∧
    (∀ r, watchdogOutcome t (some r) = some WatchdogResult.satisfied) ∧
    processOutcome { o with initial_event_timeout := t }
        { adapterEnv := aenv, bindResult := Except.ok (), firstRecvWithinDeadline := none } =
      ProcessOutcome.exited 1 ∧
    (∀ r, processOutcome { o with initial_event_timeout := t }
        { adapterEnv := aenv, bindResult := Except.ok (), firstRecvWithinDeadline := some r } =
      ProcessOutcome.acceptLoop) := by
  have harm : watchdogArmed t = true := by
    simp [watchdogArmed, h]
  refine ⟨?_, fun r => ?_, ?_, fun r => ?_⟩ <;>
    simp [watchdogOutcome, processOutcome, harm]

/-- C5 witnessed at the default deadline of 30 seconds. -/
theorem c5_watchdog_race_witness :
    watchdogOutcome 30 none = some (WatchdogResult.expired 1) :=
  (c5_watchdog_race 30 (by decide) defaultOpt enumFailEnv).1

/-- C6: with initial_event_timeout = 0 the watchdog is never armed — the
spawn guard is false, its race can never resolve — and for any resolution
of the environment the process stays in the accept loop, never exiting due
to the watchdog. -/
theorem c6_watchdog_disabled (decode : Decoder) (o : Opt) (aenv : AdapterEnv)
    (first : Option (Except RecvError SensorValues)) :
    watchdogArmed 0 = false ∧
    watchdogOutcome 0 first = none ∧
    (mainRun decode { o with initial_event_timeout := 0 }
        { adapterEnv := aenv, bindResult := Except.ok (), firstRecvWithinDeadline := first }
      ).watchdogWasArmed = false ∧
    (mainRun decode { o with initial_event_timeout := 0 }
        { adapterEnv := aenv, bindResult := Except.ok (), firstRecvWithinDeadline := first }
      ).outcome = ProcessOutcome.acceptLoop := by
  refine ⟨rfl, ?_, rfl, ?_⟩ <;>
    simp [watchdogOutcome, watchdogArmed, mainRun, processOutcome]

/-- C7: in the session write step, a combined write/flush failure of kind
BrokenPipe yields an info log, a best-effort socket shutdown and the break
out of the loop; a failure of any other kind yields only a warning log and
the loop continues (no backoff, no retry limit — the step carries no retry
state). -/
theorem c7_write_failure_dispatch (sv : SensorValues) (jr nr fr : IoResult) :
    (resultAnd (resultAnd jr nr) fr = Except.error IoErrorKind.brokenPipe →
      handleSocketStep (RecvResult.ok sv) jr nr fr =
        SessionStep.terminated (sensorMessage sv) [Level.info] true) ∧
    (∀ k, resultAnd (resultAnd jr nr) fr = Except.error (IoErrorKind.otherKind k) →
      handleSocketStep (RecvResult.ok sv) jr nr fr =
        SessionStep.looped (sensorMessage sv) [Level.warn]) := by
  refine ⟨fun hb => ?_, fun k hk => ?_⟩
  · simp [handleSocketStep, hb]
  · simp [handleSocketStep, hk]

/-- C7 witnessed: a BrokenPipe write failure terminates the session, an
Interrupted-like other failure only warns and loops. -/
theorem c7_write_failure_dispatch_witness :
    handleSocketStep (RecvResult.ok fullRecord) (Except.error IoErrorKind.brokenPipe)
        (Except.ok ()) (Except.ok ()) =
      SessionStep.terminated (sensorMessage fullRecord) [Level.info] true ∧
    handleSocketStep (RecvResult.ok fullRecord) (Except.error (IoErrorKind.otherKind 4))
        (Except.ok ()) (Except.ok ()) =
      SessionStep.looped (sensorMessage fullRecord) [Level.warn] :=
  ⟨(c7_write_failure_dispatch fullRecord (Except.error IoErrorKind.brokenPipe)
      (Except.ok ()) (Except.ok ())).1 rfl,
   (c7_write_failure_dispatch fullRecord (Except.error (IoErrorKind.otherKind 4))
      (Except.ok ()) (Except.ok ())).2 4 rfl⟩

/-- C8: main builds the bind address hostname:port and binds it once at
startup; a bind failure panics main — the process aborts with the runtime's
non-zero panic status, whatever the rest of the environment, and no retry
exists (the outcome is a function of the single bind result). The default
options bind localhost:22222. -/
theorem c8_bind_failure_fatal (decode : Decoder) (o : Opt) (aenv : AdapterEnv)
    (k : IoErrorKind) (first : Option (Except RecvError SensorValues)) :
    bindAddr o = o.hostname ++ ":" ++ toString o.port ∧
    bindAddr defaultOpt = "localhost:22222" ∧
    (mainRun decode o
        { adapterEnv := aenv, bindResult := Except.error k, firstRecvWithinDeadline := first }
      ).outcome = ProcessOutcome.panickedMain ∧
    abortsNonzero ProcessOutcome.panickedMain = true := by
  exact ⟨rfl, rfl, rfl, rfl⟩

/-- C9: the --port option is parsed through i16, so every value above 32767
is rejected by argument parsing — the server cannot be configured with such
a port even though it is a valid TCP port — while the default 22222 is
representable. -/
theorem c9_port_parsed_as_i16 (n : Int) (h : 32767 < n) :
    parsePort n = none ∧
    parsePort 22222 = some 22222 ∧
    parsePort (defaultOpt.port) = some defaultOpt.port := by
  refine ⟨?_, by decide, by decide⟩
  simp only [parsePort, ite_eq_right_iff]
  intro hc
  omega

/-- C9 witnessed at port 40000. -/
theorem c9_port_parsed_as_i16_witness :
    parsePort 40000 = none ∧ parsePort 22222 = some 22222 :=
  ⟨(c9_port_parsed_as_i16 40000 (by decide)).1,
   (c9_port_parsed_as_i16 40000 (by decide)).2.1⟩

/-- C10 counterexample: the scan task terminating (and dropping its sender)
before the deadline does not make the watchdog log success: main's
socket_tx sender is alive for the whole accept loop, so the channel does
not close, the watchdog's recv never completes, and with the default
30-second deadline the race resolves to Expired — the process exits with
status 1, not Satisfied. -/
theorem c10_counterexample :
    channelClosed false true = false ∧
    watchdogFirstRecv none false true = none ∧
    watchdogOutcome 30 (watchdogFirstRecv none false true) =
      some (WatchdogResult.expired 1) ∧
    watchdogOutcome 30 (watchdogFirstRecv none false true) ≠
      some WatchdogResult.satisfied := by
  refine ⟨rfl, rfl, rfl, by decide⟩

/-- C10 amended: the select's recv branch is indeed taken whenever the
recv future completes at all — its result is bound to a wildcard, so a
channel-closed (or lagged) completion also resolves the watchdog to
Satisfied — but scan-task termination alone never closes the channel,
because main keeps the socket_tx sender alive for the entire accept loop;
so if the scan task dies before the deadline with no record published, the
recv stays pending, the deadline fires, and the process exits with
status 1. -/
theorem c10_amended (t : Nat) (h : t ≠ 0) (scanAlive wdAlive : Bool)
    (r : Except RecvError SensorValues) :
    watchdogOutcome t (some r) = some WatchdogResult.satisfied ∧
    watchdogOutcome t (some (Except.error RecvError.closed)) =
      some WatchdogResult.satisfied ∧
    channelClosed scanAlive wdAlive = false ∧
    watchdogFirstRecv none scanAlive wdAlive = none ∧
    watchdogOutcome t (watchdogFirstRecv none scanAlive wdAlive) =
      some (WatchdogResult.expired 1) := by
  have harm : watchdogArmed t = true := by
    simp [watchdogArmed, h]
  have hclosed : channelClosed scanAlive wdAlive = false := by
    cases scanAlive <;> cases wdAlive <;> rfl
  refine ⟨?_, ?_, hclosed, ?_, ?_⟩ <;>
    simp [watchdogOutcome, watchdogFirstRecv, harm, hclosed]

/-- C10 amended, witnessed: scan task dead, watchdog alive, default
deadline. -/
theorem c10_amended_witness :
    watchdogOutcome 30 (watchdogFirstRecv none false true) =
      some (WatchdogResult.expired 1) :=
  (c10_amended 30 (by decide) false true (Except.error RecvError.closed)).2.2.2.2

end Bridge
